import Mathlib

/-!
Shallow embedding of the role-based permission logic of the agrocoop
backend (cooperativa app): the permission-matrix normalization performed
by `Rol._validar_estructura_permisos` and `RolSerializer.validate_permisos`,
the cell lookup `Rol.tiene_permiso`, the consolidated authorization check
`validar_permiso_usuario` / `permisos_usuario`, and the role-registry
operations (`RolViewSet.perform_destroy`, `duplicar`, `quitar_usuario`,
the standalone `quitar_rol_usuario` view, and the serializer name check).

Python dicts are embedded as insertion-ordered association lists; the
`JSONField` payload of `Rol.permisos`, where its leaf types matter, is
embedded as a small JSON value type.
-/

namespace Agrocoop

/-- The closed module list `permisos_requeridos` / `modulos_requeridos`
(models.py `_validar_estructura_permisos`, serializers.py
`validate_permisos`, views.py `permisos_usuario`). -/
def modulosRequeridos : List String :=
  ["usuarios", "socios", "parcelas", "cultivos",
   "ciclos_cultivo", "cosechas", "tratamientos",
   "analisis_suelo", "transferencias", "reportes",
   "auditoria", "configuracion"]

/-- The closed action list used in every default action dict. -/
def accionesRequeridas : List String :=
  ["ver", "crear", "editar", "eliminar", "aprobar"]

/-- First-match association-list lookup: Python `d[k]` / `k in d`. -/
def lookupA {α : Type} : List (String × α) → String → Option α
  | [], _ => none
  | (k, v) :: rest, key => if k = key then some v else lookupA rest key

/-- Python `d[k] = v` on a dict: overwrite in place if the key exists,
else append preserving insertion order. -/
def setA {α : Type} (l : List (String × α)) (key : String) (v : α) :
    List (String × α) :=
  if (lookupA l key).isSome then
    l.map (fun kv => if kv.1 = key then (kv.1, v) else kv)
  else
    l ++ [(key, v)]

/-- The all-false default action dict
`{'ver': False, 'crear': False, 'editar': False, 'eliminar': False,
'aprobar': False}`. -/
def accionesDefecto : List (String × Bool) :=
  [("ver", false), ("crear", false), ("editar", false),
   ("eliminar", false), ("aprobar", false)]

/-- The all-true action dict used by `permisos_usuario` for staff /
superuser principals. -/
def accionesTodas : List (String × Bool) :=
  [("ver", true), ("crear", true), ("editar", true),
   ("eliminar", true), ("aprobar", true)]

/-- The loop shared by `Rol._validar_estructura_permisos` and
`RolSerializer.validate_permisos`: for each required module missing from
the dict, insert the given default value; present modules are untouched. -/
def normalizarModulos {α : Type} (defecto : α) (p : List (String × α)) :
    List (String × α) :=
  modulosRequeridos.foldl
    (fun acc m => if (lookupA acc m).isSome then acc else acc ++ [(m, defecto)])
    p

/-- A role's permission matrix with boolean leaves, as `Rol.permisos`
holds it when well-typed. -/
abbrev Permisos : Type := List (String × List (String × Bool))

/-- `Rol._validar_estructura_permisos` (models.py): fill every missing
required module with the all-false action dict. -/
def validarEstructuraPermisos (permisos : Permisos) : Permisos :=
  normalizarModulos accionesDefecto permisos

/-- `Rol.tiene_permiso` (models.py): `False` when the module key is
absent (or the dict empty), else `permisos[modulo].get(accion, False)`. -/
def tienePermiso (permisos : Permisos) (modulo accion : String) : Bool :=
  match lookupA permisos modulo with
  | none => false
  | some permisosModulo => (lookupA permisosModulo accion).getD false

/-- The fields of `Usuario` the authorization check reads. -/
structure Usuario where
  is_staff : Bool
  is_superuser : Bool
deriving DecidableEq, Repr

/-- The fields of `Rol` the registry and authorizer read. -/
structure Rol where
  id : Nat
  nombre : String
  permisos : List (String × List (String × Bool))
  es_sistema : Bool
deriving DecidableEq, Repr

/-- A `UsuarioRol` row for one fixed user: assignment id plus the role it
links to (`usuario_rol` table, unique per (usuario, rol)). -/
structure UsuarioRol where
  id : Nat
  usuarioId : Nat
  rol : Rol
deriving DecidableEq, Repr

/-- Core of `validar_permiso_usuario` (views.py): staff or superuser
short-circuits to `True`; otherwise scan the user's roles and stop at the
first role whose matrix grants (modulo, accion). -/
def validarPermisoUsuario (usuario : Usuario) (roles : List Rol)
    (modulo accion : String) : Bool :=
  if usuario.is_staff || usuario.is_superuser then true
  else roles.any (fun r => tienePermiso r.permisos modulo accion)

/-- Inner loop of `permisos_usuario` (views.py) for one module of a
non-staff, non-superuser principal: start from the all-false dict and set
an action to `True` whenever any assigned role's entry for this module
lists that action with a truthy value. -/
def consolidarModulo (roles : List Rol) (modulo : String) :
    List (String × Bool) :=
  roles.foldl
    (fun acc r =>
      match lookupA r.permisos modulo with
      | none => acc
      | some accs => accs.foldl
          (fun acc2 av => if av.2 then setA acc2 av.1 true else acc2) acc)
    accionesDefecto

/-- `permisos_usuario` (views.py): the consolidated permission report,
one entry per required module; staff or superuser principals get the
all-true dict for every module. -/
def permisosUsuario (usuario : Usuario) (roles : List Rol) :
    List (String × List (String × Bool)) :=
  modulosRequeridos.map
    (fun m =>
      (m, if usuario.is_staff || usuario.is_superuser then accionesTodas
          else consolidarModulo roles m))

/-- `RolViewSet.perform_destroy` (views.py) together with the
`UsuarioRol.rol` foreign key's `on_delete=CASCADE` (models.py): deleting
a system role raises before anything is touched; deleting a non-system
role removes the role row and cascades removal of its assignment rows.
Result: (error message if refused, roles table, usuario_rol table). -/
def performDestroy (rolObjetivo : Rol) (roles : List Rol)
    (asignaciones : List UsuarioRol) :
    Option String × List Rol × List UsuarioRol :=
  if rolObjetivo.es_sistema then
    (some "No se puede eliminar un rol del sistema", roles, asignaciones)
  else
    (none, roles.filter (fun r => r.id ≠ rolObjetivo.id),
     asignaciones.filter (fun ur => ur.rol.id ≠ rolObjetivo.id))

/-- Python `str.lower()`, mapped over the characters; used to embed the
case-insensitive `nombre__iexact` lookups. -/
def minusculas (s : String) : String := ⟨s.data.map Char.toLower⟩

/-- The name-uniqueness test of `RolSerializer.validate` (serializers.py):
`Rol.objects.filter(nombre__iexact=nombre).exclude(id=instance.id if
instance else None).exists()`. `true` means the serializer raises. -/
def validarNombreUnico (roles : List Rol) (excluirId : Option Nat)
    (nombre : String) : Bool :=
  roles.any (fun r =>
    minusculas r.nombre = minusculas nombre && some r.id ≠ excluirId)

/-- Role creation through `RolSerializer` (create has no instance, so no
id is excluded from the duplicate-name check; `validate_permisos` has
already gap-filled the matrix; `es_sistema` is read-only, so `False`). -/
def crearRol (roles : List Rol) (newId : Nat) (nombre : String)
    (permisos : Permisos) : Option String × List Rol :=
  if validarNombreUnico roles none nombre then
    (some "Ya existe un rol con este nombre", roles)
  else
    (none, roles ++ [⟨newId, nombre, validarEstructuraPermisos permisos, false⟩])

/-- `RolViewSet.duplicar` (views.py): refuse when a role with the new
name exists case-insensitively, else create a non-system copy holding the
source role's matrix. -/
def duplicarRol (rolOriginal : Rol) (roles : List Rol) (newId : Nat)
    (nuevoNombre : String) : Option String × List Rol :=
  if roles.any (fun r => minusculas r.nombre = minusculas nuevoNombre) then
    (some "Ya existe un rol con este nombre", roles)
  else
    (none, roles ++ [⟨newId, nuevoNombre, rolOriginal.permisos, false⟩])

/-- The standalone `quitar_rol_usuario` view (views.py, the
`api/roles/quitar-rol/` endpoint): when the role is a system role, count
the user's OTHER assignment rows of ANY kind; refuse only when that count
is zero, else delete the row. `asignaciones` are the rows of the one
affected user; `objetivo` is the row being revoked. -/
def quitarRolUsuario (asignaciones : List UsuarioRol) (objetivo : UsuarioRol) :
    Option String × List UsuarioRol :=
  if objetivo.rol.es_sistema &&
      ((asignaciones.filter (fun a => a.id ≠ objetivo.id)).length = 0 : Bool) then
    (some "No se puede quitar el último rol del usuario", asignaciones)
  else
    (none, asignaciones.filter (fun a => a.id ≠ objetivo.id))

/-- `RolViewSet.quitar_usuario` (views.py): same shape, but the guard
counts only the user's other SYSTEM-role assignment rows
(`rol__es_sistema=True`). -/
def quitarUsuario (asignaciones : List UsuarioRol) (objetivo : UsuarioRol) :
    Option String × List UsuarioRol :=
  if objetivo.rol.es_sistema &&
      ((asignaciones.filter
          (fun a => a.rol.es_sistema && a.id ≠ objetivo.id)).length = 0 : Bool) then
    (some "No se puede quitar el último rol del sistema del usuario", asignaciones)
  else
    (none, asignaciones.filter (fun a => a.id ≠ objetivo.id))

/-- JSON values, for the untyped `permisos` payload as the serializer
boundary sees it. -/
inductive JValue where
  | null : JValue
  | bool (b : Bool) : JValue
  | num (n : Int) : JValue
  | str (s : String) : JValue
  | obj (fields : List (String × JValue)) : JValue

/-- Whether a JSON value is a boolean leaf. -/
def JValue.esBool : JValue → Bool
  | .bool _ => true
  | _ => false

/-- The default all-false action dict as a JSON value. -/
def defectoAccionesJ : JValue :=
  .obj (accionesRequeridas.map (fun a => (a, .bool false)))

/-- `RolSerializer.validate_permisos` (serializers.py): raise iff the
value is not a dict; otherwise insert the all-false action dict for each
missing required module and return the value. No other shape or leaf-type
check is performed. -/
def validatePermisos (value : JValue) : Except String JValue :=
  match value with
  | .obj fields => .ok (.obj (normalizarModulos defectoAccionesJ fields))
  | _ => .error "Los permisos deben ser un objeto JSON válido"

/-- Whether a serializer validation outcome accepted the input. -/
def aceptado (r : Except String JValue) : Bool :=
  match r with
  | .ok _ => true
  | .error _ => false

/-! ### Helper lemmas about association-list lookup and module filling -/

theorem lookupA_append_left {α : Type} (l l2 : List (String × α)) (k : String)
    (v : α) (h : lookupA l k = some v) : lookupA (l ++ l2) k = some v := by
  induction l with
  | nil => simp [lookupA] at h
  | cons kv rest ih =>
    obtain ⟨k1, v1⟩ := kv
    by_cases hk : k1 = k
    · simp [lookupA, hk] at h ⊢; exact h
    · simp [lookupA, hk] at h ⊢; exact ih h

theorem lookupA_append_right {α : Type} (l l2 : List (String × α)) (k : String)
    (h : lookupA l k = none) : lookupA (l ++ l2) k = lookupA l2 k := by
  induction l with
  | nil => simp
  | cons kv rest ih =>
    obtain ⟨k1, v1⟩ := kv
    by_cases hk : k1 = k
    · simp [lookupA, hk] at h
    · simp [lookupA, hk] at h ⊢; exact ih h

/-- The module-filling fold over an arbitrary module list. -/
def rellenarModulos {α : Type} (defecto : α) (ms : List String)
    (p : List (String × α)) : List (String × α) :=
  ms.foldl
    (fun acc m => if (lookupA acc m).isSome then acc else acc ++ [(m, defecto)])
    p

theorem normalizarModulos_eq_rellenar {α : Type} (defecto : α)
    (p : List (String × α)) :
    normalizarModulos defecto p = rellenarModulos defecto modulosRequeridos p := rfl

theorem rellenar_preserva {α : Type} (defecto : α) (ms : List String)
    (p : List (String × α)) (k : String) (v : α) (h : lookupA p k = some v) :
    lookupA (rellenarModulos defecto ms p) k = some v := by
  induction ms generalizing p with
  | nil => exact h
  | cons m rest ih =>
    show lookupA (rellenarModulos defecto rest _) k = some v
    by_cases hm : (lookupA p m).isSome
    · simpa [rellenarModulos, hm] using ih p h
    · simp only [rellenarModulos, List.foldl_cons, hm, if_false]
      exact ih _ (lookupA_append_left p [(m, defecto)] k v h)

theorem rellenar_agrega {α : Type} (defecto : α) (ms : List String)
    (p : List (String × α)) (k : String) (h1 : lookupA p k = none)
    (h2 : k ∈ ms) : lookupA (rellenarModulos defecto ms p) k = some defecto := by
  induction ms generalizing p with
  | nil => cases h2
  | cons m rest ih =>
    by_cases hm : m = k
    · subst hm
      have hcond : (lookupA p m).isSome = false := by simp [h1]
      simp only [rellenarModulos, List.foldl_cons, hcond, Bool.false_eq_true,
        if_false]
      refine rellenar_preserva defecto rest _ m defecto ?_
      rw [lookupA_append_right p [(m, defecto)] m h1]
      simp [lookupA]
    · have hk : k ∈ rest := by
        cases h2 with
        | head => exact absurd rfl hm
        | tail _ h => exact h
      by_cases hcond : (lookupA p m).isSome
      · simpa [rellenarModulos, hcond] using ih p h1 hk
      · simp only [rellenarModulos, List.foldl_cons, hcond, Bool.false_eq_true,
          if_false]
        refine ih _ ?_ hk
        rw [lookupA_append_right p [(m, defecto)] k h1]
        simp [lookupA, hm]

theorem rellenar_nuevo_solo_defecto {α : Type} (defecto : α) (ms : List String)
    (p : List (String × α)) (k : String) (h1 : lookupA p k = none) :
    lookupA (rellenarModulos defecto ms p) k = none ∨
      lookupA (rellenarModulos defecto ms p) k = some defecto := by
  by_cases h2 : k ∈ ms
  · exact Or.inr (rellenar_agrega defecto ms p k h1 h2)
  · left
    induction ms generalizing p with
    | nil => exact h1
    | cons m rest ih =>
      have hm : m ≠ k := fun h => h2 (h ▸ List.mem_cons_self m rest)
      have hk : k ∉ rest := fun h => h2 (List.mem_cons_of_mem m h)
      by_cases hcond : (lookupA p m).isSome
      · simpa [rellenarModulos, hcond] using ih p h1 hk
      · simp only [rellenarModulos, List.foldl_cons, hcond, Bool.false_eq_true,
          if_false]
        refine ih _ ?_ hk
        rw [lookupA_append_right p [(m, defecto)] k h1]
        simp [lookupA, hm]

theorem rellenar_fijo {α : Type} (defecto : α) (ms : List String)
    (q : List (String × α)) (h : ∀ m ∈ ms, (lookupA q m).isSome) :
    rellenarModulos defecto ms q = q := by
  induction ms with
  | nil => rfl
  | cons m rest ih =>
    have hm : (lookupA q m).isSome := h m (List.mem_cons_self m rest)
    simp only [rellenarModulos, List.foldl_cons, hm, if_true]
    exact ih (fun x hx => h x (List.mem_cons_of_mem m hx))

theorem rellenar_total {α : Type} (defecto : α) (ms : List String)
    (p : List (String × α)) (k : String) (h : k ∈ ms) :
    (lookupA (rellenarModulos defecto ms p) k).isSome := by
  cases hv : lookupA p k with
  | none => rw [rellenar_agrega defecto ms p k hv h]; rfl
  | some v => rw [rellenar_preserva defecto ms p k v hv]; rfl

theorem rellenar_idem {α : Type} (defecto : α) (ms : List String)
    (p : List (String × α)) :
    rellenarModulos defecto ms (rellenarModulos defecto ms p) =
      rellenarModulos defecto ms p :=
  rellenar_fijo defecto ms _ (fun m hm => rellenar_total defecto ms p m hm)

theorem lookupA_map_pares (f : String → List (String × Bool)) (ms : List String)
    (k : String) (h : k ∈ ms) :
    lookupA (ms.map (fun m => (m, f m))) k = some (f k) := by
  induction ms with
  | nil => cases h
  | cons m rest ih =>
    by_cases hm : m = k
    · subst hm; simp [lookupA]
    · have hk : k ∈ rest := by
        cases h with
        | head => exact absurd rfl hm
        | tail _ h => exact h
      simp [lookupA, hm, ih hk]

theorem lookupA_mem {α : Type} (l : List (String × α)) (k : String) (v : α)
    (h : lookupA l k = some v) : (k, v) ∈ l := by
  induction l with
  | nil => simp [lookupA] at h
  | cons kv rest ih =>
    obtain ⟨k1, v1⟩ := kv
    by_cases hk : k1 = k
    · subst hk
      simp only [lookupA, if_true] at h
      cases h
      exact List.mem_cons_self _ _
    · simp only [lookupA, hk, if_false] at h
      exact List.mem_cons_of_mem _ (ih h)

/-! ### Claim theorems -/

/-- C1 counterexample: the claim quantifies over every principal with the
superuser flag false, but `validar_permiso_usuario` also grants everything
to a staff principal: a staff, non-superuser principal with zero assigned
roles gets `true`, while no assigned role grants the cell. -/
theorem c1_counterexample :
    (Usuario.mk true false).is_superuser = false ∧
    validarPermisoUsuario ⟨true, false⟩ [] "socios" "ver" = true ∧
    ([] : List Rol).any (fun r => tienePermiso r.permisos "socios" "ver") = false := by
  decide

/-- C1 (amended): for a principal with BOTH the staff and the superuser
flag false, `validar_permiso_usuario` is exactly the logical OR of
`tiene_permiso` across the assigned roles, and a principal with zero
assigned roles gets `false` for every (module, action) pair. -/
theorem c1_or_consolidacion (u : Usuario) (roles : List Rol)
    (modulo accion : String) (hstaff : u.is_staff = false)
    (hsuper : u.is_superuser = false) :
    (validarPermisoUsuario u roles modulo accion = true ↔
      ∃ r, r ∈ roles ∧ tienePermiso r.permisos modulo accion = true) ∧
    (roles = [] → validarPermisoUsuario u roles modulo accion = false) := by
  constructor
  · simp [validarPermisoUsuario, hstaff, hsuper, List.any_eq_true]
  · intro h
    subst h
    simp [validarPermisoUsuario, hstaff, hsuper]

theorem c1_or_consolidacion_witness :
    validarPermisoUsuario ⟨false, false⟩
      [⟨1, "A", [("parcelas", [("crear", true)])], false⟩] "parcelas" "crear" = true ∧
    validarPermisoUsuario ⟨false, false⟩ [] "parcelas" "crear" = false :=
  ⟨(c1_or_consolidacion ⟨false, false⟩
      [⟨1, "A", [("parcelas", [("crear", true)])], false⟩] "parcelas" "crear"
      rfl rfl).1.mpr
      ⟨⟨1, "A", [("parcelas", [("crear", true)])], false⟩, by decide, by decide⟩,
   (c1_or_consolidacion ⟨false, false⟩ [] "parcelas" "crear" rfl rfl).2 rfl⟩

/-- C2: a superuser principal passes every check, for any assigned roles
(including none) and any module/action strings, and the consolidated
report of `permisos_usuario` lists every action of every required module
as `true`. -/
theorem c2_superuser_bypass (u : Usuario) (roles : List Rol)
    (modulo accion : String) (h : u.is_superuser = true) :
    validarPermisoUsuario u roles modulo accion = true ∧
    (modulo ∈ modulosRequeridos →
      lookupA (permisosUsuario u roles) modulo = some accionesTodas) := by
  constructor
  · simp [validarPermisoUsuario, h]
  · intro hm
    have hmap := lookupA_map_pares
      (fun m => if u.is_staff || u.is_superuser then accionesTodas
                else consolidarModulo roles m) modulosRequeridos modulo hm
    simpa [permisosUsuario, h] using hmap

theorem c2_superuser_bypass_witness :
    validarPermisoUsuario ⟨false, true⟩ [] "auditoria" "eliminar" = true ∧
    lookupA (permisosUsuario ⟨false, true⟩ []) "auditoria" = some accionesTodas :=
  ⟨(c2_superuser_bypass ⟨false, true⟩ [] "auditoria" "eliminar" rfl).1,
   (c2_superuser_bypass ⟨false, true⟩ [] "auditoria" "eliminar" rfl).2 (by decide)⟩

/-- C10: a staff principal is granted every (module, action) pair by
`validar_permiso_usuario` and gets the all-true dict for every required
module from `permisos_usuario`, for any superuser flag and any assigned
roles (including none) — the staff flag bypasses the matrices exactly
like the superuser flag. -/
theorem c10_staff_bypass (u : Usuario) (roles : List Rol)
    (modulo accion : String) (h : u.is_staff = true) :
    validarPermisoUsuario u roles modulo accion = true ∧
    (modulo ∈ modulosRequeridos →
      lookupA (permisosUsuario u roles) modulo = some accionesTodas) := by
  constructor
  · simp [validarPermisoUsuario, h]
  · intro hm
    have hmap := lookupA_map_pares
      (fun m => if u.is_staff || u.is_superuser then accionesTodas
                else consolidarModulo roles m) modulosRequeridos modulo hm
    simpa [permisosUsuario, h] using hmap

theorem c10_staff_bypass_witness :
    validarPermisoUsuario ⟨true, false⟩ [] "usuarios" "eliminar" = true ∧
    lookupA (permisosUsuario ⟨true, false⟩ []) "usuarios" = some accionesTodas :=
  ⟨(c10_staff_bypass ⟨true, false⟩ [] "usuarios" "eliminar" rfl).1,
   (c10_staff_bypass ⟨true, false⟩ [] "usuarios" "eliminar" rfl).2 (by decide)⟩

/-- C3 counterexample: normalization fills wholly missing modules only.
For the input `{"usuarios": {"ver": true}}` the output keeps the module
entry exactly as given, so the required action "crear" is absent from the
present module's entry instead of defaulting to `false`. -/
theorem c3_counterexample :
    lookupA (validarEstructuraPermisos [("usuarios", [("ver", true)])])
      "usuarios" = some [("ver", true)] ∧
    lookupA [("ver", true)] "crear" = none ∧
    "crear" ∈ accionesRequeridas ∧ "usuarios" ∈ modulosRequeridos := by
  decide

/-- C3 (amended): for every partial input the normalization output has an
entry for every module of the closed set; a module wholly omitted from
the input gets the full all-false action dict; but a module present in
the input keeps its entry exactly as given, so actions omitted inside it
stay absent (reads default them to `false` only via `tiene_permiso`). -/
theorem c3_normalizacion_total (p : Permisos) (m : String)
    (hm : m ∈ modulosRequeridos) :
    (lookupA (validarEstructuraPermisos p) m).isSome = true ∧
    (lookupA p m = none →
      lookupA (validarEstructuraPermisos p) m = some accionesDefecto) ∧
    (∀ accs, lookupA p m = some accs →
      lookupA (validarEstructuraPermisos p) m = some accs) := by
  refine ⟨?_, ?_, ?_⟩
  · exact rellenar_total accionesDefecto modulosRequeridos p m hm
  · intro h
    exact rellenar_agrega accionesDefecto modulosRequeridos p m h hm
  · intro accs h
    exact rellenar_preserva accionesDefecto modulosRequeridos p m accs h

theorem c3_normalizacion_total_witness :
    lookupA (validarEstructuraPermisos [("socios", [("ver", true)])])
      "usuarios" = some accionesDefecto ∧
    lookupA (validarEstructuraPermisos [("socios", [("ver", true)])])
      "socios" = some [("ver", true)] :=
  ⟨(c3_normalizacion_total [("socios", [("ver", true)])] "usuarios"
      (by decide)).2.1 (by decide),
   (c3_normalizacion_total [("socios", [("ver", true)])] "socios"
      (by decide)).2.2 [("ver", true)] (by decide)⟩

/-- C9: normalization is idempotent, never changes a module entry already
present in the input (so never flips a present `true`), and what it adds
is only wholly missing modules with the all-false action dict. -/
theorem c9_normalizacion_idempotente (p : Permisos) :
    validarEstructuraPermisos (validarEstructuraPermisos p) =
      validarEstructuraPermisos p ∧
    (∀ m accs, lookupA p m = some accs →
      lookupA (validarEstructuraPermisos p) m = some accs) ∧
    (∀ m, lookupA p m = none →
      lookupA (validarEstructuraPermisos p) m = none ∨
      lookupA (validarEstructuraPermisos p) m = some accionesDefecto) :=
  ⟨rellenar_idem accionesDefecto modulosRequeridos p,
   fun m accs h => rellenar_preserva accionesDefecto modulosRequeridos p m accs h,
   fun m h => rellenar_nuevo_solo_defecto accionesDefecto modulosRequeridos p m h⟩

theorem c9_normalizacion_idempotente_witness :
    validarEstructuraPermisos
        (validarEstructuraPermisos [("parcelas", [("ver", true)])]) =
      validarEstructuraPermisos [("parcelas", [("ver", true)])] ∧
    lookupA (validarEstructuraPermisos [("parcelas", [("ver", true)])])
      "parcelas" = some [("ver", true)] :=
  ⟨(c9_normalizacion_idempotente [("parcelas", [("ver", true)])]).1,
   (c9_normalizacion_idempotente [("parcelas", [("ver", true)])]).2.1
      "parcelas" [("ver", true)] (by decide)⟩

/-- C7 counterexample: `tiene_permiso` consults only the stored dict, and
neither it nor normalization strips keys outside the closed module set.
A matrix storing the unknown module "foo" with `{"ver": true}` — which
the write boundary accepts and normalization preserves — grants
("foo", "ver") even though "foo" is outside the closed set. -/
theorem c7_counterexample :
    "foo" ∉ modulosRequeridos ∧
    tienePermiso [("foo", [("ver", true)])] "foo" "ver" = true ∧
    tienePermiso (validarEstructuraPermisos [("foo", [("ver", true)])])
      "foo" "ver" = true ∧
    aceptado (validatePermisos (.obj [("foo", .obj [("ver", .bool true)])])) = true := by
  refine ⟨by decide, by decide, by decide, rfl⟩

/-- C7 (amended): `tiene_permiso` totally resolves to a boolean and
returns `false` whenever the queried module is absent from the stored
dict or the queried action is absent from the module's entry; for a
matrix whose stored module keys all lie in the closed set, any module
outside the closed set therefore yields `false`. (Stored matrices may
however retain out-of-set module keys, which do grant access, per the
counterexample.) -/
theorem c7_denegacion_por_defecto (p : Permisos) (modulo accion : String) :
    (lookupA p modulo = none → tienePermiso p modulo accion = false) ∧
    (∀ accs, lookupA p modulo = some accs → lookupA accs accion = none →
      tienePermiso p modulo accion = false) ∧
    ((∀ e ∈ p, e.1 ∈ modulosRequeridos) → modulo ∉ modulosRequeridos →
      tienePermiso p modulo accion = false) := by
  refine ⟨?_, ?_, ?_⟩
  · intro h
    simp [tienePermiso, h]
  · intro accs h1 h2
    simp [tienePermiso, h1, h2]
  · intro hall hm
    cases hl : lookupA p modulo with
    | none => simp [tienePermiso, hl]
    | some accs =>
      exact absurd (hall (modulo, accs) (lookupA_mem p modulo accs hl)) hm

theorem c7_denegacion_por_defecto_witness :
    tienePermiso [("usuarios", [("ver", true)])] "socios" "ver" = false ∧
    tienePermiso [("usuarios", [("ver", true)])] "usuarios" "crear" = false ∧
    tienePermiso [("usuarios", [("ver", true)])] "foo" "aprobar" = false :=
  ⟨(c7_denegacion_por_defecto [("usuarios", [("ver", true)])] "socios" "ver").1
      (by decide),
   (c7_denegacion_por_defecto [("usuarios", [("ver", true)])] "usuarios"
      "crear").2.1 [("ver", true)] (by decide) (by decide),
   (c7_denegacion_por_defecto [("usuarios", [("ver", true)])] "foo"
      "aprobar").2.2 (by decide) (by decide)⟩

/-- C8 counterexample: `validate_permisos` only rejects a value that is
not a dict. A dict whose leaf action value is the string "yes" — not a
boolean — is accepted unchanged, contradicting the claim that non-boolean
leaves are rejected at the role create/update boundary. -/
theorem c8_counterexample :
    aceptado (validatePermisos
      (.obj [("usuarios", .obj [("ver", .str "yes")])])) = true ∧
    JValue.esBool (.str "yes") = false :=
  ⟨rfl, rfl⟩

/-- C8 (amended): the boundary check of `validate_permisos` is shallow —
every non-mapping input is rejected with the validation error, and every
mapping input (whatever the shapes or types of its values, boolean or
not) is accepted and only gap-filled. -/
theorem c8_validacion_superficial :
    (∀ v : JValue, (∀ fields, v ≠ JValue.obj fields) →
      validatePermisos v = .error "Los permisos deben ser un objeto JSON válido") ∧
    (∀ fields, aceptado (validatePermisos (JValue.obj fields)) = true) := by
  constructor
  · intro v h
    cases v with
    | obj fields => exact absurd rfl (h fields)
    | null => rfl
    | bool b => rfl
    | num n => rfl
    | str s => rfl
  · intro fields
    rfl

theorem c8_validacion_superficial_witness :
    validatePermisos (.str "x") =
      .error "Los permisos deben ser un objeto JSON válido" ∧
    aceptado (validatePermisos (.obj [])) = true :=
  ⟨c8_validacion_superficial.1 (.str "x") (fun _ h => JValue.noConfusion h),
   c8_validacion_superficial.2 []⟩

/-- C4 evaluation at the failing input: a principal holds assignment 1 to
a system role and assignment 2 to a non-system role. The standalone
`quitar_rol_usuario` endpoint counts the remaining assignments of ANY
kind (here 1), so it deletes the system-role assignment and leaves the
principal with zero system-role assignments — while the sibling
`RolViewSet.quitar_usuario`, which counts remaining SYSTEM-role
assignments as the claim demands, refuses the same revocation. -/
theorem c4_quitar_rol_eval :
    (Rol.mk 1 "Socio" [] true).es_sistema = true ∧
    quitarRolUsuario
        [⟨1, 1, ⟨1, "Socio", [], true⟩⟩, ⟨2, 1, ⟨2, "Personalizado", [], false⟩⟩]
        ⟨1, 1, ⟨1, "Socio", [], true⟩⟩ =
      (none, [⟨2, 1, ⟨2, "Personalizado", [], false⟩⟩]) ∧
    (([⟨2, 1, ⟨2, "Personalizado", [], false⟩⟩] : List UsuarioRol).filter
        (fun a => a.rol.es_sistema)).length = 0 ∧
    quitarUsuario
        [⟨1, 1, ⟨1, "Socio", [], true⟩⟩, ⟨2, 1, ⟨2, "Personalizado", [], false⟩⟩]
        ⟨1, 1, ⟨1, "Socio", [], true⟩⟩ =
      (some "No se puede quitar el último rol del sistema del usuario",
       [⟨1, 1, ⟨1, "Socio", [], true⟩⟩, ⟨2, 1, ⟨2, "Personalizado", [], false⟩⟩]) := by
  decide

/-- C5: deleting a system role through `perform_destroy` raises the
domain error and leaves both the role table and the assignment table
exactly as they were; deleting a non-system role succeeds, removes
exactly that role, and cascades removal of exactly its assignment rows. -/
theorem c5_proteccion_rol_sistema (rolObjetivo : Rol) (roles : List Rol)
    (asignaciones : List UsuarioRol) :
    (rolObjetivo.es_sistema = true →
      performDestroy rolObjetivo roles asignaciones =
        (some "No se puede eliminar un rol del sistema", roles, asignaciones)) ∧
    (rolObjetivo.es_sistema = false →
      (performDestroy rolObjetivo roles asignaciones).1 = none ∧
      (∀ r ∈ (performDestroy rolObjetivo roles asignaciones).2.1,
        r.id ≠ rolObjetivo.id) ∧
      (∀ r ∈ roles, r.id ≠ rolObjetivo.id →
        r ∈ (performDestroy rolObjetivo roles asignaciones).2.1) ∧
      (∀ ur ∈ (performDestroy rolObjetivo roles asignaciones).2.2,
        ur.rol.id ≠ rolObjetivo.id) ∧
      (∀ ur ∈ asignaciones, ur.rol.id ≠ rolObjetivo.id →
        ur ∈ (performDestroy rolObjetivo roles asignaciones).2.2)) := by
  constructor
  · intro h
    simp [performDestroy, h]
  · intro h
    have hd : performDestroy rolObjetivo roles asignaciones =
        (none, roles.filter (fun r => r.id ≠ rolObjetivo.id),
         asignaciones.filter (fun ur => ur.rol.id ≠ rolObjetivo.id)) := by
      simp [performDestroy, h]
    rw [hd]
    refine ⟨rfl, ?_, ?_, ?_, ?_⟩ <;> intros <;> simp_all [List.mem_filter]

theorem c5_proteccion_rol_sistema_witness :
    performDestroy ⟨1, "Administrador", [], true⟩
        [⟨1, "Administrador", [], true⟩] [⟨1, 1, ⟨1, "Administrador", [], true⟩⟩] =
      (some "No se puede eliminar un rol del sistema",
       [⟨1, "Administrador", [], true⟩], [⟨1, 1, ⟨1, "Administrador", [], true⟩⟩]) ∧
    (performDestroy ⟨2, "Copia", [], false⟩ [⟨2, "Copia", [], false⟩]
        [⟨3, 1, ⟨2, "Copia", [], false⟩⟩]).1 = none :=
  ⟨(c5_proteccion_rol_sistema ⟨1, "Administrador", [], true⟩
      [⟨1, "Administrador", [], true⟩]
      [⟨1, 1, ⟨1, "Administrador", [], true⟩⟩]).1 rfl,
   ((c5_proteccion_rol_sistema ⟨2, "Copia", [], false⟩ [⟨2, "Copia", [], false⟩]
      [⟨3, 1, ⟨2, "Copia", [], false⟩⟩]).2 rfl).1⟩

/-- C6: both role creation and role duplication refuse a name equal,
case-insensitively, to an existing role's name, and leave the role table
unchanged in that case; the update-path uniqueness check of
`RolSerializer.validate` flags exactly the case-insensitive matches among
roles other than the instance being updated. -/
theorem c6_nombre_unico (roles : List Rol) (newId selfId : Nat)
    (nombre : String) (permisos : Permisos) (src : Rol) :
    ((∃ r, r ∈ roles ∧ minusculas r.nombre = minusculas nombre) →
      crearRol roles newId nombre permisos =
        (some "Ya existe un rol con este nombre", roles) ∧
      duplicarRol src roles newId nombre =
        (some "Ya existe un rol con este nombre", roles)) ∧
    (validarNombreUnico roles (some selfId) nombre = true ↔
      ∃ r, r ∈ roles ∧ r.id ≠ selfId ∧ minusculas r.nombre = minusculas nombre) := by
  constructor
  · rintro ⟨r, hr, hname⟩
    have hdup : roles.any (fun x => minusculas x.nombre = minusculas nombre) = true := by
      rw [List.any_eq_true]
      exact ⟨r, hr, by simp [hname]⟩
    have hval : validarNombreUnico roles none nombre = true := by
      rw [validarNombreUnico, List.any_eq_true]
      exact ⟨r, hr, by simp [hname]⟩
    constructor
    · simp [crearRol, hval]
    · simp [duplicarRol, hdup]
  · rw [validarNombreUnico, List.any_eq_true]
    constructor
    · rintro ⟨r, hr, hcond⟩
      simp only [Bool.and_eq_true, decide_eq_true_eq] at hcond
      exact ⟨r, hr, fun h => hcond.2 (by rw [h]), hcond.1⟩
    · rintro ⟨r, hr, hid, hname⟩
      refine ⟨r, hr, ?_⟩
      simp only [Bool.and_eq_true, decide_eq_true_eq]
      exact ⟨hname, fun h => hid (Option.some_injective _ h)⟩

theorem c6_nombre_unico_witness :
    crearRol [⟨1, "ADMIN", [], false⟩] 2 "Admin" [] =
      (some "Ya existe un rol con este nombre", [⟨1, "ADMIN", [], false⟩]) ∧
    validarNombreUnico [⟨1, "ADMIN", [], false⟩] (some 2) "Admin" = true ∧
    validarNombreUnico [⟨1, "ADMIN", [], false⟩] (some 1) "Admin" = false :=
  ⟨((c6_nombre_unico [⟨1, "ADMIN", [], false⟩] 2 0 "Admin" []
      ⟨0, "X", [], false⟩).1 ⟨⟨1, "ADMIN", [], false⟩, by decide, by decide⟩).1,
   (c6_nombre_unico [⟨1, "ADMIN", [], false⟩] 0 2 "Admin" []
      ⟨0, "X", [], false⟩).2.mpr
      ⟨⟨1, "ADMIN", [], false⟩, by decide, by decide, by decide⟩,
   by decide⟩

end Agrocoop

